import Mathlib

/-!
Verification of the OBS Discord-notification scripts: a shallow embedding of
`discordwebhooks/webhook.py`, `pytwitch/twitch.py` and
`discord-notification.py`, with theorems settling the specification claims.

HTTP traffic is modelled by passing each outbound call's response in as an
explicit argument (an oracle); everything else follows the Python source
line by line.  Python exceptions are modelled with `Except PyErr`; a
function that cannot raise is given a pure type.
-/

/-- Python exceptions raised by the three modules.  Each carries its message
so that distinct `ValueError`s raised at different places stay
distinguishable. -/
inductive PyErr where
  | valueError (msg : String)
  | notAuthenticated (msg : String)
  | attributeError (msg : String)
  | typeError (msg : String)
deriving DecidableEq, Repr

/-- Python truthiness of a string: `bool(s)` is `False` exactly for `''`. -/
def pyTruthy (s : String) : Bool := !s.isEmpty

/-- Python truthiness of an optional string (`None` and `''` are falsy). -/
def pyTruthyOpt : Option String → Bool
  | none => false
  | some s => pyTruthy s

/-- Python truthiness of an optional int (`None` and `0` are falsy). -/
def pyTruthyOptInt : Option Int → Bool
  | none => false
  | some n => n != 0

/-- Python truthiness of an optional list/dict (`None` and empty are falsy). -/
def pyTruthyOptList {α : Type} : Option (List α) → Bool
  | none => false
  | some l => !l.isEmpty

/-- Lookup in a modelled Python dict with a default, as in `d.get(k, dflt)`. -/
def dictGet {α : Type} (d : List (String × α)) (k : String) (dflt : α) : α :=
  match d.find? (fun p => p.1 == k) with
  | some p => p.2
  | none => dflt

/-- Values that occur inside the image/thumbnail/video dicts of an embed
(string urls, int widths/heights, bool flags). -/
inductive DVal where
  | s (v : String)
  | i (v : Int)
  | b (v : Bool)
deriving DecidableEq, Repr

/-- One element of `DiscordEmbed._fields`, as built by `add_field`:
`{'name': ..., 'value': ..., 'inline'?: ...}`. -/
structure EmbedField where
  name : String
  value : String
  inline : Option Bool
deriving DecidableEq, Repr

/-- `DiscordEmbed` attribute state (`webhook.py:21-37`).  `__init__` reads
every attribute from `**kwargs` with `kwargs.get(...)`, so each is optional;
`_fields` alone defaults to `[]` instead of `None`
(`kwargs.get('fields', [])`). -/
structure DiscordEmbed where
  title : Option String
  description : Option String
  url : Option String
  timestamp : Option String
  color : Option Int
  footer : Option (List (String × String))
  image : Option (List (String × DVal))
  thumbnail : Option (List (String × DVal))
  video : Option (List (String × DVal))
  provider : Option (List (String × String))
  author : Option (List (String × String))
  fields : Option (List EmbedField)
deriving DecidableEq, Repr

/-- `DiscordEmbed()` with no keyword arguments: every attribute is `None`
except `_fields`, which `kwargs.get('fields', [])` makes the empty list. -/
def DiscordEmbed.init_default : DiscordEmbed :=
  { title := none, description := none, url := none, timestamp := none
    color := none, footer := none, image := none, thumbnail := none
    video := none, provider := none, author := none, fields := some [] }

/-- `DiscordEmbed.Limits.MaxLength` (`webhook.py:19`). -/
def DiscordEmbed.LimitsMaxLength : Nat := 6000

/-- Python tuple-unpacking of a string into two targets, as in
`(x, y) = s`: a string is a sequence of 1-character strings, so this
succeeds exactly when `len(s) == 2` and otherwise raises `ValueError`. -/
def pyUnpack2 (s : String) : Except PyErr (Char × Char) :=
  match s.data with
  | [a, b] => .ok (a, b)
  | l =>
    if l.length < 2 then .error (.valueError "not enough values to unpack (expected 2)")
    else .error (.valueError "too many values to unpack (expected 2)")

/-- Length of the 1-character Python string obtained by unpacking. -/
def pyLenChar (_ : Char) : Nat := 1

/-- One field's contribution inside `embed_length`'s comprehension
(`webhook.py:55`).  The source iterates `(x, y)` over the two-element list
`[f.get('name', ''), f.get('value', '')]`, i.e. it tuple-unpacks each of the
two *strings* into `(x, y)` and adds `len(x) + len(y)`. -/
def DiscordEmbed.field_terms (f : EmbedField) : Except PyErr Nat := do
  let p ← pyUnpack2 f.name
  let q ← pyUnpack2 f.value
  pure (pyLenChar p.1 + pyLenChar p.2 + pyLenChar q.1 + pyLenChar q.2)

/-- Effectful `mapM` over `Except`, written as the structural recursion a
Python `for`-loop/comprehension performs (first raise aborts). -/
def mapMExc {α β : Type} (f : α → Except PyErr β) : List α → Except PyErr (List β)
  | [] => .ok []
  | a :: as => do
    let b ← f a
    let bs ← mapMExc f as
    pure (b :: bs)

/-- The field-free part of `embed_length` (`webhook.py:44-51`):
`len(title or '') + len(description or '')`, plus `footer.get('text','')`
and `author.get('name','')` when those attributes are present. -/
def DiscordEmbed.base_length (e : DiscordEmbed) : Nat :=
  (e.title.getD "").length + (e.description.getD "").length
    + (match e.footer with
       | none => 0
       | some f => (dictGet f "text" "").length)
    + (match e.author with
       | none => 0
       | some a => (dictGet a "name" "").length)

/-- `DiscordEmbed.embed_length` (`webhook.py:41-57`): the base part, plus
the (buggy, see `field_terms`) comprehension over `_fields` when it is not
`None`. -/
def DiscordEmbed.embed_length (e : DiscordEmbed) : Except PyErr Nat :=
  match e.fields with
  | none => pure e.base_length
  | some fs => do
    let terms ← mapMExc DiscordEmbed.field_terms fs
    pure (e.base_length + terms.sum)

/-- `DiscordEmbed.is_empty` (`webhook.py:66-80`): true iff all twelve
attributes are `None` (note `_fields` is in the list, but `__init__`
defaults it to `[]`, not `None`). -/
def DiscordEmbed.is_empty (e : DiscordEmbed) : Bool :=
  e.title.isNone && e.description.isNone && e.url.isNone && e.timestamp.isNone
    && e.color.isNone && e.footer.isNone && e.image.isNone && e.thumbnail.isNone
    && e.video.isNone && e.provider.isNone && e.author.isNone && e.fields.isNone

/-- `DiscordEmbed.is_embed_valid` (`webhook.py:61-62`):
`embed_length() <= 6000 and not is_empty()`; any exception from
`embed_length` propagates. -/
def DiscordEmbed.is_embed_valid (e : DiscordEmbed) : Except PyErr Bool := do
  let len ← e.embed_length
  pure (decide (len ≤ DiscordEmbed.LimitsMaxLength) && !e.is_empty)

/-- `DiscordEmbed.set_color_decimal` (`webhook.py:153-154`). -/
def DiscordEmbed.set_color_decimal (e : DiscordEmbed) (color : Option Int) : DiscordEmbed :=
  { e with color := color }

/-- `DiscordEmbed.set_timestamp` (`webhook.py:133-143`).  `now` stands for
`datetime.now().astimezone().isoformat()`, used when the argument is a
falsy non-`None` string. -/
def DiscordEmbed.set_timestamp (e : DiscordEmbed) (timestamp : Option String) (now : String) : DiscordEmbed :=
  match timestamp with
  | none => { e with timestamp := none }
  | some ts => if pyTruthy ts then { e with timestamp := some ts } else { e with timestamp := some now }

/-- Assignment `self.thumbnail = v` (`webhook.py:222` and `webhook.py:224`).
`thumbnail` is declared only as a read-only `@property` (a getter,
`webhook.py:211-213`, with no setter), so in Python this attribute
assignment raises `AttributeError` before any state change. -/
def DiscordEmbed.propAssignThumbnail (e : DiscordEmbed) (v : Option (List (String × DVal))) :
    Except PyErr DiscordEmbed :=
  .error (.attributeError "property \x27thumbnail\x27 of \x27DiscordEmbed\x27 object has no setter")

/-- `DiscordEmbed.set_thumbnail` (`webhook.py:217-231`).  Both branches begin
by assigning to `self.thumbnail` (unlike the sibling `set_image`, which
assigns `self._image`), so both branches raise; the proxy/width/height
handling below the first assignment is unreachable. -/
def DiscordEmbed.set_thumbnail (e : DiscordEmbed) (url : String) (proxy_url : Option String)
    (width : Option Int) (height : Option Int) : Except PyErr DiscordEmbed :=
  if !(pyTruthy url) then
    DiscordEmbed.propAssignThumbnail e none
  else
    DiscordEmbed.propAssignThumbnail e (some [("url", DVal.s url)])

/-- Values carried by the serialized embed dict produced by the `json`
property. -/
inductive JVal where
  | s (v : String)
  | i (v : Int)
  | strDict (v : List (String × String))
  | dvalDict (v : List (String × DVal))
  | fieldArr (v : List EmbedField)
deriving DecidableEq, Repr

/-- `DiscordEmbed.json` (`webhook.py:303-332`): builds the wire dict by
inserting each attribute under its key when the attribute is *truthy*
(`if self._title:` etc.); the insertion order follows the source.  The
result is modelled as an association list. -/
def DiscordEmbed.json (e : DiscordEmbed) : List (String × JVal) :=
  (if pyTruthyOpt e.title then [("title", JVal.s (e.title.getD ""))] else [])
    ++ (if pyTruthyOpt e.description then [("description", JVal.s (e.description.getD ""))] else [])
    ++ (if pyTruthyOpt e.url then [("url", JVal.s (e.url.getD ""))] else [])
    ++ (if pyTruthyOpt e.timestamp then [("timestamp", JVal.s (e.timestamp.getD ""))] else [])
    ++ (if pyTruthyOptInt e.color then [("color", JVal.i (e.color.getD 0))] else [])
    ++ (if pyTruthyOptList e.footer then [("footer", JVal.strDict (e.footer.getD []))] else [])
    ++ (if pyTruthyOptList e.image then [("image", JVal.dvalDict (e.image.getD []))] else [])
    ++ (if pyTruthyOptList e.thumbnail then [("thumbnail", JVal.dvalDict (e.thumbnail.getD []))] else [])
    ++ (if pyTruthyOptList e.video then [("video", JVal.dvalDict (e.video.getD []))] else [])
    ++ (if pyTruthyOptList e.provider then [("provider", JVal.strDict (e.provider.getD []))] else [])
    ++ (if pyTruthyOptList e.author then [("author", JVal.strDict (e.author.getD []))] else [])
    ++ (if pyTruthyOptList e.fields then [("fields", JVal.fieldArr (e.fields.getD []))] else [])

/-- The keys the specification's (amended) round-trip property predicts for
the wire form: exactly the attributes that are truthy, in the builder's
order. -/
def DiscordEmbed.truthyAttrKeys (e : DiscordEmbed) : List String :=
  (if pyTruthyOpt e.title then ["title"] else [])
    ++ (if pyTruthyOpt e.description then ["description"] else [])
    ++ (if pyTruthyOpt e.url then ["url"] else [])
    ++ (if pyTruthyOpt e.timestamp then ["timestamp"] else [])
    ++ (if pyTruthyOptInt e.color then ["color"] else [])
    ++ (if pyTruthyOptList e.footer then ["footer"] else [])
    ++ (if pyTruthyOptList e.image then ["image"] else [])
    ++ (if pyTruthyOptList e.thumbnail then ["thumbnail"] else [])
    ++ (if pyTruthyOptList e.video then ["video"] else [])
    ++ (if pyTruthyOptList e.provider then ["provider"] else [])
    ++ (if pyTruthyOptList e.author then ["author"] else [])
    ++ (if pyTruthyOptList e.fields then ["fields"] else [])

/-- A webhook target: `(webhook_url, username override, avatar_url override)`. -/
def WebhookTarget : Type := String × Option String × Option String

/-- `DiscordWebhook` state (`webhook.py:339-348`): target list, optional
content, optional embed list (the type hints allow `embeds=None`). -/
structure DiscordWebhook where
  urls : List WebhookTarget
  content : Option String
  embeds : Option (List DiscordEmbed)

/-- The JSON body POSTed to one webhook url by `DiscordWebhook.__execute`
(`webhook.py:396-421`); `none` in a field means the key is absent. -/
structure WebhookPayload where
  url : String
  content : Option String
  embeds : Option (List (List (String × JVal)))
  username : Option String
  avatar_url : Option String
deriving DecidableEq, Repr

/-- `DiscordWebhook.__has_valid_message` (`webhook.py:355-356`):
`(content is not None and len(content) > 0) or (embeds is not None and
len(embeds) > 0)`.  Embed *validity* is not consulted. -/
def DiscordWebhook.has_valid_message (w : DiscordWebhook) : Bool :=
  (match w.content with
   | none => false
   | some c => c.length > 0)
  || (match w.embeds with
      | none => false
      | some es => es.length > 0)

/-- The comprehension filter `[x for x in embeds if x.is_embed_valid()]`
(`webhook.py:406`); a raise inside the validity check aborts it. -/
def filterValidEmbeds : List DiscordEmbed → Except PyErr (List DiscordEmbed)
  | [] => .ok []
  | e :: es => do
    let b ← e.is_embed_valid
    let rest ← filterValidEmbeds es
    pure (if b then e :: rest else rest)

/-- The `json_payload` one `__execute` call POSTs: `content` / `username` /
`avatar_url` are included when truthy; `embedsField` carries the (possibly
empty) list of serialized valid embeds whenever the embed list itself was
non-empty. -/
def DiscordWebhook.payload_for (w : DiscordWebhook) (target : WebhookTarget)
    (embedsField : Option (List (List (String × JVal)))) : WebhookPayload :=
  { url := target.1
    content := if pyTruthyOpt w.content then w.content else none
    embeds := embedsField
    username := if pyTruthyOpt target.2.1 then target.2.1 else none
    avatar_url := if pyTruthyOpt target.2.2 then target.2.2 else none }

/-- `DiscordWebhook.__execute` for one target (`webhook.py:396-421`): re-check
the message, then build and POST the JSON payload; the `embeds` key is set
(to the valid embeds' wire forms) whenever `self._embeds` is a non-empty
list, regardless of how many of its embeds are valid. -/
def DiscordWebhook.execute_one (w : DiscordWebhook) (target : WebhookTarget) :
    Except PyErr WebhookPayload :=
  if !(DiscordWebhook.has_valid_message w) then
    .error (.valueError "Cannot execute webhook, content or embeds were not defined.")
  else
    match w.embeds with
    | some es =>
      if es.length > 0 then do
        let valids ← filterValidEmbeds es
        pure (DiscordWebhook.payload_for w target (some (valids.map DiscordEmbed.json)))
      else pure (DiscordWebhook.payload_for w target none)
    | none => pure (DiscordWebhook.payload_for w target none)

/-- `DiscordWebhook.execute` (`webhook.py:387-392`): raise `ValueError` when
`__has_valid_message()` is false, otherwise call `__execute` on each target
in order.  The result lists the payload POSTed to each target. -/
def DiscordWebhook.execute (w : DiscordWebhook) : Except PyErr (List WebhookPayload) :=
  if !(DiscordWebhook.has_valid_message w) then
    .error (.valueError "Did not define at least one of the content or embed field")
  else mapMExc (DiscordWebhook.execute_one w) w.urls

/-- `DiscordWebhook.execute_on_urls` (`webhook.py:430-436`): construct (which
raises when the url list is empty, `webhook.py:350-351`) and execute. -/
def DiscordWebhook.execute_on_urls (urls : List WebhookTarget) (content : Option String)
    (embeds : List DiscordEmbed) : Except PyErr (List WebhookPayload) :=
  if urls.length == 0 then .error (.valueError "Must include at least one webhook url")
  else DiscordWebhook.execute { urls := urls, content := content, embeds := some embeds }

/-- `Twitch` session attributes (`twitch.py:46-52`). -/
structure TwitchState where
  client_id : Option String
  client_secret : Option String
  access_token : Option String
  refresh_token : Option String
  is_authenticated : Bool
  scopes : Option (List String)
deriving DecidableEq, Repr

/-- Credentials dict read by `Twitch.__init__` via `auth_info.get(...)`. -/
structure AuthInfo where
  access_token : Option String
  client_id : Option String
  client_secret : Option String
deriving DecidableEq, Repr

/-- Response of the token-validation endpoint: HTTP status and the
`client_id` field of the JSON body. -/
structure ValidateResponse where
  status : Nat
  client_id : Option String
deriving DecidableEq, Repr

/-- Response of the token-exchange endpoint: HTTP status and the JSON
body's token fields. -/
structure OAuthResponse where
  status : Nat
  access_token : Option String
  refresh_token : Option String
deriving DecidableEq, Repr

/-- The guard `if response == 200:` in `Twitch.validate_token`
(`twitch.py:183`) compares the `requests.Response` *object* — not
`response.status_code` — with an int.  `requests.Response` defines no
equality against int, so Python falls back to default object equality and
the comparison is always `False`, whatever the status code was.  The
operands are taken (and ignored) to mirror the source expression. -/
def pyResponseEqInt (status : Nat) (n : Nat) : Bool := false

/-- `Twitch.validate_token` (`twitch.py:172-186`): raise `ValueError` when
the token is falsy; otherwise GET the validation endpoint (modelled by the
`resp` oracle) and test `response == 200` (see `pyResponseEqInt`), so the
`client_id` extraction on the true branch is dead code and the function
returns `None`. -/
def Twitch.validate_token (access_token : String) (resp : ValidateResponse) :
    Except PyErr (Option String) :=
  if !(pyTruthy access_token) then .error (.valueError "No access_token given, cannot validate")
  else if pyResponseEqInt resp.status 200 then .ok resp.client_id
  else .ok none

/-- `Twitch.__oauth` (`twitch.py:84-121`): refresh-token flow when a refresh
token is held, client-credentials flow otherwise; non-200 raises
`ValueError`; only the client-credentials branch stores the returned
tokens.  Returns the updated `(access_token, refresh_token)` pair. -/
def Twitch.oauth (refresh_token : Option String) (cur_access : Option String)
    (oresp : OAuthResponse) : Except PyErr (Option String × Option String) :=
  if refresh_token.isSome then
    if oresp.status != 200 then .error (.valueError "Invalid ClientID or ClientSecret")
    else .ok (cur_access, refresh_token)
  else
    if oresp.status != 200 then .error (.valueError "Invalid ClientID or ClientSecret")
    else .ok (oresp.access_token, oresp.refresh_token)

/-- `Twitch.__init__` (`twitch.py:46-81`).  `vresp` is the validation
endpoint's response (used only on the access-token path), `oresp` the
token-exchange response (used only on the client-credentials path).  Note
the access-token path is taken whenever `access_token is not None`, even
for the empty string, for which `validate_token` raises and the exception
escapes construction; on the credentials path only `ValueError` is caught. -/
def Twitch.init (auth_info : AuthInfo) (scopes : Option (List String))
    (vresp : ValidateResponse) (oresp : OAuthResponse) : Except PyErr TwitchState :=
  match auth_info.access_token with
  | some tok => do
    let cid ← Twitch.validate_token tok vresp
    pure { client_id := cid, client_secret := none, access_token := some tok,
           refresh_token := none, is_authenticated := cid.isSome, scopes := scopes }
  | none =>
    match auth_info.client_id, auth_info.client_secret with
    | some cid, some csec =>
      (match Twitch.oauth none none oresp with
       | .error (.valueError _) =>
         .ok { client_id := some cid, client_secret := some csec, access_token := none,
               refresh_token := none, is_authenticated := false, scopes := scopes }
       | .error e => .error e
       | .ok (atok, rtok) =>
         .ok { client_id := some cid, client_secret := some csec, access_token := atok,
               refresh_token := rtok, is_authenticated := true, scopes := scopes })
    | _, _ => .error (.valueError "Could not authtenticate with twitch, invalid credentials provided")

/-- `Twitch.__validate_response` (`twitch.py:125-140`).  `oauthRaises` is the
outcome of the transparent `__oauth()` re-authentication attempted on a
401 whose `WWW-Authenticate` header equals the source's (oddly quoted)
literal; any other 401 falls through to `return True`. -/
def Twitch.validate_response (status : Nat) (wwwAuthenticate : String) (oauthRaises : Bool) : Bool :=
  if status == 401 then
    if wwwAuthenticate == "OAuth realm=\x27TwitchTV\x27, error=\x27invalid_token" then
      if oauthRaises then false else true
    else true
  else if status != 200 then false
  else true

/-- A user record: only the `id` key is ever read (`user_info.get('id')`). -/
structure UserRec where
  id : Option String
deriving DecidableEq, Repr

/-- A channel record, with the four keys
`__get_relavent_channel_info` indexes. -/
structure ChannelRec where
  broadcaster_name : String
  title : String
  game_name : String
  game_id : String
deriving DecidableEq, Repr

/-- A game record: only `box_art_url` is read (with default `''`). -/
structure GameRec where
  box_art_url : Option String
deriving DecidableEq, Repr

/-- A video record: `title` and `url` are read with `.get(..., '')`. -/
structure VideoRec where
  title : Option String
  url : Option String
deriving DecidableEq, Repr

/-- Oracle response of the users endpoint: HTTP status, the
`WWW-Authenticate` header, whether a transparent re-auth would raise, and
the JSON body's `data` array. -/
structure UsersResponse where
  status : Nat
  wwwAuthenticate : String
  oauthRaises : Bool
  data : Option (List UserRec)
deriving DecidableEq, Repr

/-- Oracle response of the channels endpoint. -/
structure ChannelsResponse where
  status : Nat
  wwwAuthenticate : String
  oauthRaises : Bool
  data : Option (List ChannelRec)
deriving DecidableEq, Repr

/-- Oracle response of the games endpoint. -/
structure GamesResponse where
  status : Nat
  wwwAuthenticate : String
  oauthRaises : Bool
  data : Option (List GameRec)
deriving DecidableEq, Repr

/-- Oracle response of the videos endpoint (`data` array plus
`pagination.cursor`). -/
structure VideosResponse where
  status : Nat
  wwwAuthenticate : String
  oauthRaises : Bool
  data : Option (List VideoRec)
  cursor : Option String
deriving DecidableEq, Repr

/-- `str.isdecimal()`: non-empty and all decimal digits. -/
def pyIsDecimal (s : String) : Bool := !s.isEmpty && s.data.all Char.isDigit

/-- `Twitch.get_users_info` (`twitch.py:231-255`): cap check, id/login
classification into the query payload, GET through
`__attempt_request_get`/`__validate_response`, then `data` (default `[]`)
on an accepted response and `None` otherwise.  The outgoing request
carries the session's `Client-ID`/`Authorization` headers; only the
response handling matters here and the session state is *never*
consulted for authentication. -/
def Twitch.get_users_info (t : TwitchState) (ids : List String) (resp : UsersResponse) :
    Except PyErr (Option (List UserRec)) :=
  if ids.length > 100 then
    .error (.valueError "Requesting too many ids. Please reduce below 100")
  else
    let _payload := ids.map (fun id => if pyIsDecimal id then ("id", id) else ("login", id))
    if Twitch.validate_response resp.status resp.wwwAuthenticate resp.oauthRaises then
      .ok (some (resp.data.getD []))
    else .ok none

/-- `Twitch.get_user_info` (`twitch.py:259-265`): one-element lookup;
returns the single record iff the list is truthy and has length 1. -/
def Twitch.get_user_info (t : TwitchState) (user : String) (resp : UsersResponse) :
    Except PyErr (Option UserRec) := do
  let info ← Twitch.get_users_info t [user] resp
  match info with
  | some l => if l.length == 1 then pure l.head? else pure none
  | none => pure none

/-- `Twitch.get_channel_info` (`twitch.py:269-282`): GET, then
`data` (no default) — `None` when the key is missing, the list is empty,
or the response was rejected; otherwise `data[0]`. -/
def Twitch.get_channel_info (t : TwitchState) (user_id : Option String) (resp : ChannelsResponse) :
    Option ChannelRec :=
  if Twitch.validate_response resp.status resp.wwwAuthenticate resp.oauthRaises then
    match resp.data with
    | none => none
    | some data => if data.isEmpty then none else data.head?
  else none

/-- `Twitch.get_videos_info` (`twitch.py:286-319`).  The guard
`all(v is None for v in {video_ids, user_id, game_id})` builds a Python
*set*; a list element is unhashable, so any non-`None` `video_ids` raises
`TypeError` while the set display is evaluated, before anything else. -/
def Twitch.get_videos_info (t : TwitchState) (video_ids : Option (List String))
    (user_id : Option String) (game_id : Option String) (resp : VideosResponse) :
    Except PyErr (Option (List VideoRec × Option String)) :=
  match video_ids with
  | some _ => .error (.typeError "unhashable type: \x27list\x27")
  | none =>
    if user_id.isNone && game_id.isNone then
      .error (.valueError "Expected any combination of video_ids, user_id, or game_id to be specified")
    else
      if Twitch.validate_response resp.status resp.wwwAuthenticate resp.oauthRaises then
        let video_data := resp.data.getD []
        let pagination := resp.cursor
        if video_data.isEmpty then .ok none
        else .ok (some (video_data, pagination))
      else .ok none

/-- `Twitch.get_games_info` (`twitch.py:323-347`): cap check, id/name
classification, GET, then `data` (default `[]`), with empty mapped to
`None`. -/
def Twitch.get_games_info (t : TwitchState) (games : List String) (resp : GamesResponse) :
    Except PyErr (Option (List GameRec)) :=
  if games.length > 100 then
    .error (.valueError "Requested too many game ids, please reduce to 100 or less")
  else
    let _payload := games.map (fun id => if pyIsDecimal id then ("id", id) else ("name", id))
    if Twitch.validate_response resp.status resp.wwwAuthenticate resp.oauthRaises then
      let data := resp.data.getD []
      if data.isEmpty then .ok none else .ok (some data)
    else .ok none

/-- `Twitch.get_game_info` (`twitch.py:351-357`): single-game lookup. -/
def Twitch.get_game_info (t : TwitchState) (game : String) (resp : GamesResponse) :
    Except PyErr (Option GameRec) := do
  let data ← Twitch.get_games_info t [game] resp
  match data with
  | none => pure none
  | some l => if l.isEmpty then pure none else pure l.head?

/-- The parameters POSTed to the token-revoke endpoint. -/
structure RevokePost where
  client_id : String
  token : String
deriving DecidableEq, Repr

/-- `Twitch.revoke_access` (`twitch.py:190-203`): guard both arguments for
truthiness (raising `ValueError`), then POST the revoke request; the HTTP
response is ignored entirely, so a failed (non-200) revoke neither raises
nor is detected.  The returned value records the POSTed parameters. -/
def Twitch.revoke_access (client_id : Option String) (access_token : Option String) :
    Except PyErr RevokePost :=
  if !(pyTruthyOpt client_id) then .error (.valueError "Invalid client_id provided")
  else if !(pyTruthyOpt access_token) then .error (.valueError "Invalid access_token provided")
  else .ok { client_id := client_id.getD "", token := access_token.getD "" }

/-- `Twitch.revoke_my_access` (`twitch.py:207-209`): call `revoke_access`
with the session's credentials, then set `_is_authenticated = False`.  When
`revoke_access` raises, the flag assignment on the next line is never
reached and the exception propagates.  Result: (new session state, revoke
POSTs made, escaping exception, if any). -/
def Twitch.revoke_my_access (t : TwitchState) : TwitchState × List RevokePost × Option PyErr :=
  match Twitch.revoke_access t.client_id t.access_token with
  | .error e => (t, [], some e)
  | .ok p => ({ t with is_authenticated := false }, [p], none)

/-- Replace every (leftmost, non-overlapping) occurrence of `pat` in `s` by
`rep`, as Python's `str.replace` does for a non-empty pattern; written with
explicit fuel so the recursion is structural. -/
def replaceCharsAux (pat rep : List Char) : Nat → List Char → List Char
  | 0, l => l
  | _ + 1, [] => []
  | fuel + 1, c :: cs =>
    if pat.isPrefixOf (c :: cs) then rep ++ replaceCharsAux pat rep fuel (List.drop (pat.length - 1) cs)
    else c :: replaceCharsAux pat rep fuel cs

/-- `s.replace(pat, rep)` for the non-empty patterns used by the script. -/
def pyReplace (s pat rep : String) : String :=
  if pat.isEmpty then s else ⟨replaceCharsAux pat.data rep.data s.data.length s.data⟩

/-- `BOXART_RATIO = 13/18` (`discord-notification.py:13`), as a rational. -/
def BOXART_RATIO : ℚ := 13 / 18

/-- `int(round(self._boxart_height * BOXART_RATIO))`
(`discord-notification.py:215`).  Written with integer division so it
evaluates in the kernel; `boxart_width_eq_round` proves it equal to
rounding the rational product `h * 13/18`.  (Python evaluates the product
in binary floating point; for the integer heights involved the float value
differs from the rational one by well under the distance to the nearest
rounding boundary, so the rational rounding is the faithful result.) -/
def boxart_width (h : Int) : Int := (26 * h + 18) / 36

/-- Orchestrator state: the `DiscordNotificationScript` attributes the two
stream-event handlers read or write (`discord-notification.py:67-87`). -/
structure ScriptState where
  discord_start_msg : Option String
  discord_stop_msg : Option String
  username : String
  boxart_height : Int
  hooks_list : List String
  twitch : Option TwitchState
  is_streaming : Bool
  do_discord_start_notice : Bool
  do_discord_stop_notice : Bool
deriving DecidableEq, Repr

/-- Platform responses consumed by the StreamStarted handler. -/
structure StartOracle where
  usersResp : UsersResponse
  channelResp : ChannelsResponse
  gamesResp : GamesResponse
deriving DecidableEq, Repr

/-- Platform responses consumed by the StreamStopped handler. -/
structure StopOracle where
  usersResp : UsersResponse
  videosResp : VideosResponse
deriving DecidableEq, Repr

/-- `DiscordNotificationScript.__get_relavent_channel_info`
(`discord-notification.py:191-219`).  Reading
`self._twitch.authenticated` raises `AttributeError` when `_twitch` is
`None`; an unauthenticated client raises `NotAuthenticatedError`;
username/channel lookup failures raise `ValueError`; the box-art URL gets
the computed `{width}x{height}` substitution. -/
def DiscordNotificationScript.get_relavent_channel_info (s : ScriptState) (o : StartOracle)
    (user_id0 : Option String) :
    Except PyErr (String × String × String × String × String × Int × Int) :=
  match s.twitch with
  | none => .error (.attributeError "\x27NoneType\x27 object has no attribute \x27authenticated\x27")
  | some t =>
    if !t.is_authenticated then
      .error (.notAuthenticated "Cannot retrieve channel information, not authenticated with twitch.")
    else do
      let user_id ←
        (if !(pyTruthyOpt user_id0) then do
          let user_info ← Twitch.get_user_info t s.username o.usersResp
          match user_info with
          | none => throw (PyErr.valueError "Invalid twitch username")
          | some u => pure u.id
        else pure user_id0)
      match Twitch.get_channel_info t user_id o.channelResp with
      | none => throw (PyErr.valueError "Invalid user id")
      | some ch => do
        let game_name := ch.game_name
        let game_id := ch.game_id
        let title := ch.title
        let name := ch.broadcaster_name
        let game_info_opt ← Twitch.get_game_info t game_id o.gamesResp
        let game_info := game_info_opt.getD { box_art_url := none }
        let width : Int := boxart_width s.boxart_height
        let height : Int := s.boxart_height
        let boxart_url := pyReplace (game_info.box_art_url.getD "") "\x7bwidth\x7dx\x7bheight\x7d"
          (toString width ++ "x" ++ toString height)
        pure (name, title, game_name, game_id, boxart_url, width, height)

/-- `DiscordNotificationScript.__on_start` (`discord-notification.py:127-151`).
The `try` covers the channel-info call; `except` catches only `ValueError`
and `NotAuthenticatedError` (logged and swallowed); any other exception,
and any exception raised in the `else` block by the webhook delivery,
escapes the handler — in all cases after the `finally` has set
`_is_streaming = True`.  `now` stands for the current ISO timestamp.
Result: (new state, payloads POSTed, exception escaping the handler). -/
def DiscordNotificationScript.on_start (s : ScriptState) (o : StartOracle) (now : String) :
    ScriptState × List WebhookPayload × Option PyErr :=
  match DiscordNotificationScript.get_relavent_channel_info s o none with
  | .error (.valueError _) => ({ s with is_streaming := true }, [], none)
  | .error (.notAuthenticated _) => ({ s with is_streaming := true }, [], none)
  | .error e => ({ s with is_streaming := true }, [], some e)
  | .ok (name, title0, game_name, _, boxart_url, width, height) =>
    let title := name ++ " is streaming " ++ game_name ++ " on twitch.tv  | " ++ title0
    let stream_url := "https://www.twitch.tv/" ++ s.username ++ "/"
    if s.do_discord_start_notice then
      let embed0 : DiscordEmbed :=
        { title := some title, description := none, url := some stream_url, timestamp := none
          color := none, footer := none
          image := some [("url", DVal.s boxart_url), ("width", DVal.i width), ("height", DVal.i height)]
          thumbnail := none, video := none, provider := none, author := none, fields := some [] }
      let embed := DiscordEmbed.set_timestamp embed0 (some "") now
      match DiscordWebhook.execute_on_urls (s.hooks_list.map (fun u => (u, none, none)))
          s.discord_start_msg [embed] with
      | .error e => ({ s with is_streaming := true }, [], some e)
      | .ok posts => ({ s with is_streaming := true }, posts, none)
    else ({ s with is_streaming := true }, [], none)

/-- `DiscordNotificationScript.__on_stop` (`discord-notification.py:154-184`).
There is no `try`/`except`/`finally` here: every raise escapes the handler,
and the final `self._is_streaming = False` runs only when no exception was
raised before it. -/
def DiscordNotificationScript.on_stop (s : ScriptState) (o : StopOracle) (now : String) :
    ScriptState × List WebhookPayload × Option PyErr :=
  match s.twitch with
  | none =>
    (s, [], some (.notAuthenticated "Not Authenticated with twitch, cannot retrieve information"))
  | some t =>
    if !t.is_authenticated then
      (s, [], some (.notAuthenticated "Not Authenticated with twitch, cannot retrieve information"))
    else
      match Twitch.get_user_info t s.username o.usersResp with
      | .error e => (s, [], some e)
      | .ok none => (s, [], some (.valueError "Invalid twitch username"))
      | .ok (some u) =>
        match Twitch.get_videos_info t none u.id none o.videosResp with
        | .error e => (s, [], some e)
        | .ok none => (s, [], some (.typeError "cannot unpack non-iterable NoneType object"))
        | .ok (some (video_info, _)) =>
          if video_info.isEmpty then (s, [], some (.valueError "Invalid video info requested"))
          else
            let video := video_info.headD { title := none, url := none }
            let video_url := video.url.getD ""
            if s.do_discord_stop_notice then
              let embed0 : DiscordEmbed :=
                { title := some (video.title.getD ""), description := none, url := some video_url
                  timestamp := none, color := none, footer := none, image := none
                  thumbnail := none, video := none, provider := none, author := none
                  fields := some [] }
              let embed := DiscordEmbed.set_timestamp embed0 (some "") now
              match DiscordWebhook.execute_on_urls (s.hooks_list.map (fun u2 => (u2, none, none)))
                  s.discord_stop_msg [embed] with
              | .error e => (s, [], some e)
              | .ok posts => ({ s with is_streaming := false }, posts, none)
            else ({ s with is_streaming := false }, [], none)

/-- `OBSScript.handle_events` (`discord-notification.py:24-29`): iterate the
callbacks registered for the event with *no* exception handling; a callback
that raises aborts the loop and its exception propagates to the host.  Each
callback is modelled as a state transformer returning the payloads it
POSTed and the exception it raised, if any. -/
def OBSScript.handle_events
    (callbacks : List (ScriptState → ScriptState × List WebhookPayload × Option PyErr))
    (s : ScriptState) : ScriptState × List WebhookPayload × Option PyErr :=
  match callbacks with
  | [] => (s, [], none)
  | c :: rest =>
    match c s with
    | (s1, ps, none) =>
      let r := OBSScript.handle_events rest s1
      (r.1, ps ++ r.2.1, r.2.2)
    | (s1, ps, some e) => (s1, ps, some e)

/-- A session whose `authenticated` flag is false (concrete test state). -/
def twitchUnauthenticated : TwitchState :=
  { client_id := some "cid", client_secret := none, access_token := some "tok",
    refresh_token := none, is_authenticated := false, scopes := none }

/-- Users endpoint: HTTP 200 with one record. -/
def usersResp200 : UsersResponse :=
  { status := 200, wwwAuthenticate := "", oauthRaises := false, data := some [{ id := some "42" }] }

/-- Channels endpoint: HTTP 200 with the scenario channel record. -/
def channelsResp200 : ChannelsResponse :=
  { status := 200, wwwAuthenticate := "", oauthRaises := false,
    data := some [{ broadcaster_name := "alice", title := "My Title", game_name := "GameX",
                    game_id := "g1" }] }

/-- Games endpoint: HTTP 200 with a templated box-art URL. -/
def gamesResp200 : GamesResponse :=
  { status := 200, wwwAuthenticate := "", oauthRaises := false,
    data := some [{ box_art_url := some "https://art/\x7bwidth\x7dx\x7bheight\x7d.jpg" }] }

/-- `DiscordEmbed(fields=None)`-style embed: all twelve attributes `None`, so
`is_empty()` is true and `is_embed_valid()` is false. -/
def emptyInvalidEmbed : DiscordEmbed :=
  { title := none, description := none, url := none, timestamp := none, color := none,
    footer := none, image := none, thumbnail := none, video := none, provider := none,
    author := none, fields := none }

/-- A webhook with no content and only the invalid embed above. -/
def c5Webhook : DiscordWebhook :=
  { urls := [("https://discord.example/hookA", none, none)], content := none,
    embeds := some [emptyInvalidEmbed] }

/-- A webhook with content and no embeds (used to instantiate `claim_C5`). -/
def c5OkWebhook : DiscordWebhook :=
  { urls := [("https://discord.example/hookB", none, none)], content := some "hi",
    embeds := some [] }

/-- An embed whose `color` attribute is set (via its setter) to `0`. -/
def c6Embed : DiscordEmbed :=
  DiscordEmbed.set_color_decimal DiscordEmbed.init_default (some 0)

/-- An embed with one field whose name has length 3 and value length 2. -/
def c9Embed : DiscordEmbed :=
  { DiscordEmbed.init_default with fields := some [{ name := "abc", value := "de", inline := none }] }

/-- The session produced by client-credential construction with
`client_id=''`: authenticated, but with a falsy client id. -/
def c8State : TwitchState :=
  { client_id := some "", client_secret := some "sec", access_token := some "tok",
    refresh_token := none, is_authenticated := true, scopes := none }

/-- Orchestrator state with no platform client and the streaming flag up. -/
def stoppedUnauthState : ScriptState :=
  { discord_start_msg := none, discord_stop_msg := some "The stream has ended. Go check out the VOD!",
    username := "alice", boxart_height := 72, hooks_list := ["https://discord.example/hookC"],
    twitch := none, is_streaming := true, do_discord_start_notice := false,
    do_discord_stop_notice := true }

/-- Same state but with a present, unauthenticated platform client. -/
def stoppedUnauthState2 : ScriptState :=
  { stoppedUnauthState with twitch := some twitchUnauthenticated }

/-- Responses for the StreamStopped scenario (all healthy; never reached on
the unauthenticated path). -/
def stopOracle200 : StopOracle :=
  { usersResp := usersResp200,
    videosResp := { status := 200, wwwAuthenticate := "", oauthRaises := false,
                    data := some [{ title := some "vod", url := some "https://v" }],
                    cursor := none } }

/-- Orchestrator state for the StreamStarted scenario of the spec:
`sendOnStart=true`, username `alice`, `boxartHeight=72`, two hooks. -/
def startScenarioState : ScriptState :=
  { discord_start_msg := some "The stream has started, come watch!", discord_stop_msg := none,
    username := "alice", boxart_height := 72,
    hooks_list := ["https://discord.example/hook1", "https://discord.example/hook2"],
    twitch := some { client_id := some "cid", client_secret := none, access_token := some "tok",
                     refresh_token := none, is_authenticated := true, scopes := none },
    is_streaming := false, do_discord_start_notice := true, do_discord_stop_notice := false }

/-- Responses for the StreamStarted scenario. -/
def startScenarioOracle : StartOracle :=
  { usersResp := usersResp200, channelResp := channelsResp200, gamesResp := gamesResp200 }

/-- The wire form of the embed the StreamStarted scenario builds. -/
def startScenarioEmbedJson : List (String × JVal) :=
  [("title", JVal.s "alice is streaming GameX on twitch.tv  | My Title"),
   ("url", JVal.s "https://www.twitch.tv/alice/"),
   ("timestamp", JVal.s "2026-01-01T00:00:00"),
   ("image", JVal.dvalDict [("url", DVal.s "https://art/52x72.jpg"),
                            ("width", DVal.i 52), ("height", DVal.i 72)])]

/-- The payload the StreamStarted scenario POSTs to hook `u`. -/
def startScenarioPayload (u : String) : WebhookPayload :=
  { url := u, content := some "The stream has started, come watch!",
    embeds := some [startScenarioEmbedJson], username := none, avatar_url := none }

theorem excBind_error {α β : Type} (e : PyErr) (g : α → Except PyErr β) :
    (Except.error e >>= g) = Except.error e := rfl

theorem excBind_ok {α β : Type} (a : α) (g : α → Except PyErr β) :
    (Except.ok a >>= g) = g a := rfl

/-- Errors escaping string unpacking are the two unpack `ValueError`s. -/
theorem pyUnpack2_error_msg (s : String) (e : PyErr) (h : pyUnpack2 s = .error e) :
    e = .valueError "not enough values to unpack (expected 2)"
    ∨ e = .valueError "too many values to unpack (expected 2)" := by
  unfold pyUnpack2 at h
  split at h
  · exact absurd h (by simp)
  · split at h
    · left
      injection h with h2
      exact h2.symm
    · right
      injection h with h2
      exact h2.symm

/-- Errors escaping one field's length computation are unpack errors. -/
theorem field_terms_error_msg (f : EmbedField) (e : PyErr)
    (h : DiscordEmbed.field_terms f = .error e) :
    e = .valueError "not enough values to unpack (expected 2)"
    ∨ e = .valueError "too many values to unpack (expected 2)" := by
  unfold DiscordEmbed.field_terms at h
  cases h1 : pyUnpack2 f.name with
  | error e1 =>
    rw [h1, excBind_error] at h
    injection h with h2
    exact h2 ▸ pyUnpack2_error_msg f.name e1 h1
  | ok p =>
    rw [h1, excBind_ok] at h
    cases h2 : pyUnpack2 f.value with
    | error e2 =>
      rw [h2, excBind_error] at h
      injection h with h3
      exact h3 ▸ pyUnpack2_error_msg f.value e2 h2
    | ok q =>
      rw [h2, excBind_ok] at h
      exact Except.noConfusion h

/-- An error produced by `mapMExc` comes from `f` on some list element. -/
theorem mapMExc_error {α β : Type} (f : α → Except PyErr β) :
    ∀ (l : List α) (e : PyErr), mapMExc f l = .error e → ∃ a, a ∈ l ∧ f a = .error e := by
  intro l
  induction l with
  | nil =>
    intro e h
    exact absurd h (by simp [mapMExc])
  | cons a as ih =>
    intro e h
    unfold mapMExc at h
    cases hfa : f a with
    | error e1 =>
      rw [hfa, excBind_error] at h
      injection h with h2
      exact ⟨a, by simp, h2 ▸ hfa⟩
    | ok b =>
      rw [hfa, excBind_ok] at h
      cases hrest : mapMExc f as with
      | error e2 =>
        rw [hrest, excBind_error] at h
        injection h with h2
        obtain ⟨x, hx, hfx⟩ := ih e2 hrest
        exact ⟨x, by simp [hx], h2 ▸ hfx⟩
      | ok bs =>
        rw [hrest, excBind_ok] at h
        exact Except.noConfusion h

/-- `mapMExc` preserves the list length on success. -/
theorem mapMExc_ok_length {α β : Type} (f : α → Except PyErr β) :
    ∀ (l : List α) (bs : List β), mapMExc f l = .ok bs → bs.length = l.length := by
  intro l
  induction l with
  | nil =>
    intro bs h
    simp [mapMExc] at h
    simp [← h]
  | cons a as ih =>
    intro bs h
    unfold mapMExc at h
    cases hfa : f a with
    | error e1 => rw [hfa, excBind_error] at h; exact absurd h (by simp)
    | ok b =>
      rw [hfa, excBind_ok] at h
      cases hrest : mapMExc f as with
      | error e2 => rw [hrest, excBind_error] at h; exact absurd h (by simp)
      | ok bs1 =>
        rw [hrest, excBind_ok] at h
        injection h with h2
        rw [← h2]
        simp [ih bs1 hrest]

/-- Errors escaping `embed_length` are the two unpack `ValueError`s. -/
theorem embed_length_error_msg (x : DiscordEmbed) (e : PyErr)
    (h : x.embed_length = .error e) :
    e = .valueError "not enough values to unpack (expected 2)"
    ∨ e = .valueError "too many values to unpack (expected 2)" := by
  unfold DiscordEmbed.embed_length at h
  split at h
  · exact Except.noConfusion h
  · rename_i fs hfs
    cases hm : mapMExc DiscordEmbed.field_terms fs with
    | error e1 =>
      rw [hm, excBind_error] at h
      injection h with h2
      obtain ⟨a, _, hfa⟩ := mapMExc_error _ fs e1 hm
      exact h2 ▸ field_terms_error_msg a e1 hfa
    | ok terms =>
      rw [hm, excBind_ok] at h
      exact Except.noConfusion h

/-- Errors escaping `is_embed_valid` are the two unpack `ValueError`s. -/
theorem is_embed_valid_error_msg (x : DiscordEmbed) (e : PyErr)
    (h : x.is_embed_valid = .error e) :
    e = .valueError "not enough values to unpack (expected 2)"
    ∨ e = .valueError "too many values to unpack (expected 2)" := by
  unfold DiscordEmbed.is_embed_valid at h
  cases hm : x.embed_length with
  | error e1 =>
    rw [hm, excBind_error] at h
    injection h with h2
    exact h2 ▸ embed_length_error_msg x e1 hm
  | ok len =>
    rw [hm, excBind_ok] at h
    exact Except.noConfusion h

/-- Errors escaping the valid-embed filter are the two unpack errors. -/
theorem filterValidEmbeds_error_msg : ∀ (es : List DiscordEmbed) (e : PyErr),
    filterValidEmbeds es = .error e →
    e = .valueError "not enough values to unpack (expected 2)"
    ∨ e = .valueError "too many values to unpack (expected 2)" := by
  intro es
  induction es with
  | nil =>
    intro e h
    exact absurd h (by simp [filterValidEmbeds])
  | cons x xs ih =>
    intro e h
    unfold filterValidEmbeds at h
    cases hv : x.is_embed_valid with
    | error e1 =>
      rw [hv, excBind_error] at h
      injection h with h2
      exact h2 ▸ is_embed_valid_error_msg x e1 hv
    | ok b =>
      rw [hv, excBind_ok] at h
      cases hr : filterValidEmbeds xs with
      | error e2 =>
        rw [hr, excBind_error] at h
        injection h with h2
        exact h2 ▸ ih e2 hr
      | ok rest =>
        rw [hr, excBind_ok] at h
        exact Except.noConfusion h

/-- A single-target `__execute` never raises the outer `execute` gate's
message: its own gate uses a different message, and the only other raise
site is the unpack bug inside the validity filter. -/
theorem execute_one_error_ne (w : DiscordWebhook) (t : WebhookTarget) (e : PyErr)
    (h : DiscordWebhook.execute_one w t = .error e) :
    e ≠ .valueError "Did not define at least one of the content or embed field" := by
  unfold DiscordWebhook.execute_one at h
  split at h
  · injection h with h2
    rw [← h2]
    decide
  · split at h
    · rename_i es hes
      split at h
      · cases hv : filterValidEmbeds es with
        | error e1 =>
          rw [hv, excBind_error] at h
          injection h with h2
          rcases filterValidEmbeds_error_msg es e1 hv with h3 | h3 <;>
            (rw [← h2, h3]; decide)
        | ok valids =>
          rw [hv, excBind_ok] at h
          exact Except.noConfusion h
      · exact Except.noConfusion h
    · exact Except.noConfusion h

theorem map_fst_ite_singleton (c : Prop) [Decidable c] (k : String) (v : JVal) :
    List.map Prod.fst (if c then [(k, v)] else []) = if c then [k] else [] := by
  split <;> rfl

/-- C4 (code_bug): the claim — and the spec — say an embed with no
attributes set is empty and invalid, but `DiscordEmbed()`'s `_fields`
defaults to `[]` (not `None`), so `is_empty()` is `False` and
`is_embed_valid()` returns `True` for the fully-unset embed. -/
theorem claim_C4 :
    DiscordEmbed.is_empty DiscordEmbed.init_default = false
    ∧ DiscordEmbed.is_embed_valid DiscordEmbed.init_default = .ok true
    ∧ DiscordEmbed.embed_length DiscordEmbed.init_default = .ok 0 := ⟨rfl, rfl, rfl⟩

/-- C9 (code_bug): `embed_length` is *not* total on non-empty field lists —
the comprehension tuple-unpacks each field's name and value string, so a
3-character name raises the unpack `ValueError` (through
`is_embed_valid` too), where the intended sum of lengths would be 5. -/
theorem claim_C9 :
    DiscordEmbed.embed_length c9Embed
        = .error (.valueError "too many values to unpack (expected 2)")
    ∧ DiscordEmbed.is_embed_valid c9Embed
        = .error (.valueError "too many values to unpack (expected 2)")
    ∧ (c9Embed.fields.getD []).foldl (fun acc f => acc + f.name.length + f.value.length) 0 = 5
    := ⟨rfl, rfl, rfl⟩

/-- C10 (code_bug): `set_thumbnail` never succeeds — for every embed and
every url (empty or not) it raises `AttributeError`, because both branches
assign to the read-only property `thumbnail` instead of the backing
attribute `_thumbnail`. -/
theorem claim_C10 (e : DiscordEmbed) (url : String) (proxy_url : Option String)
    (width height : Option Int) :
    DiscordEmbed.set_thumbnail e url proxy_url width height
      = .error (.attributeError "property \x27thumbnail\x27 of \x27DiscordEmbed\x27 object has no setter") := by
  unfold DiscordEmbed.set_thumbnail DiscordEmbed.propAssignThumbnail
  split <;> rfl

/-- C5 counterexample: a webhook with no content whose embed list holds only
an invalid (empty) embed.  The claim says `execute()` fails with
`EmptyMessage` before posting; instead the code posts once to the target
(with an empty `embeds` array), because `__has_valid_message` only tests
`len(embeds) > 0`, never validity. -/
theorem claim_C5_counterexample :
    DiscordWebhook.execute c5Webhook
      = .ok [{ url := "https://discord.example/hookA", content := none,
               embeds := some [], username := none, avatar_url := none }]
    ∧ DiscordEmbed.is_embed_valid emptyInvalidEmbed = .ok false
    ∧ c5Webhook.content = none := ⟨rfl, rfl, rfl⟩

/-- C5 (amended): `execute()` raises the empty-message `ValueError` exactly
when the content is absent/empty *and* the embed list is absent/empty —
embed validity plays no part in the gate — and whenever it completes it
has POSTed exactly one payload per configured target. -/
theorem claim_C5 (w : DiscordWebhook) :
    (DiscordWebhook.execute w
        = .error (.valueError "Did not define at least one of the content or embed field")
      ↔ DiscordWebhook.has_valid_message w = false)
    ∧ (∀ ps, DiscordWebhook.execute w = .ok ps → ps.length = w.urls.length) := by
  unfold DiscordWebhook.execute
  cases hv : DiscordWebhook.has_valid_message w with
  | false =>
    simp only [Bool.not_false, if_true]
    constructor
    · simp
    · intro ps h
      exact absurd h (by simp)
  | true =>
    simp only [Bool.not_true, if_false]
    constructor
    · constructor
      · intro h
        obtain ⟨t, _, ht⟩ := mapMExc_error _ w.urls _ h
        exact absurd rfl (execute_one_error_ne w t _ ht)
      · intro h
        exact absurd h (by simp)
    · intro ps h
      exact mapMExc_ok_length _ w.urls ps h

/-- Witness instantiating `claim_C5` on a concrete webhook that proceeds. -/
theorem claim_C5_witness :
    ([{ url := "https://discord.example/hookB", content := some "hi",
        embeds := none, username := none, avatar_url := none }] : List WebhookPayload).length
      = c5OkWebhook.urls.length :=
  (claim_C5 c5OkWebhook).2 _ rfl

/-- C6 counterexample: `set_color_decimal(0)` leaves `color` non-null, yet
the wire form omits the `color` key (the builder tests truthiness, and `0`
is falsy), so "contains exactly the keys for non-null attributes" fails. -/
theorem claim_C6_counterexample :
    c6Embed.color = some 0
    ∧ (DiscordEmbed.json c6Embed).map Prod.fst = [] := ⟨rfl, rfl⟩

/-- C6 (amended): the wire form contains exactly the keys of the *truthy*
attributes (non-`None` and non-empty/non-zero), in the builder's order;
attributes that are unset — or set but falsy — never appear. -/
theorem claim_C6 (e : DiscordEmbed) :
    (DiscordEmbed.json e).map Prod.fst = DiscordEmbed.truthyAttrKeys e := by
  unfold DiscordEmbed.json DiscordEmbed.truthyAttrKeys
  simp only [List.map_append, map_fst_ite_singleton]

/-- `boxart_width` agrees with rounding the rational product
`h * BOXART_RATIO`. -/
theorem boxart_width_eq_round (h : Int) :
    boxart_width h = round ((h : ℚ) * BOXART_RATIO) := by
  unfold boxart_width BOXART_RATIO
  rw [round_eq]
  have hq : (h : ℚ) * (13 / 18) + 1 / 2 = ((26 * h + 18 : ℤ) : ℚ) / ((36 : ℕ) : ℚ) := by
    push_cast
    ring
  rw [hq, Rat.floor_intCast_div_natCast]
  norm_num

/-- C1 (code_bug): with `access_token` credentials and a validation response
of HTTP 200 carrying a `client_id`, construction succeeds but the session
is still marked *unauthenticated* and no client id is stored, because
`validate_token` tests `response == 200` (object vs int — always false)
instead of `response.status_code == 200`.  Also, for the present-but-empty
token the `ValueError` from `validate_token` escapes construction. -/
theorem claim_C1 :
    Twitch.init { access_token := some "tok123", client_id := none, client_secret := none } none
        { status := 200, client_id := some "abc" }
        { status := 0, access_token := none, refresh_token := none }
      = .ok { client_id := none, client_secret := none, access_token := some "tok123",
              refresh_token := none, is_authenticated := false, scopes := none }
    ∧ Twitch.validate_token "tok123" { status := 200, client_id := some "abc" } = .ok none
    ∧ Twitch.init { access_token := some "", client_id := none, client_secret := none } none
        { status := 200, client_id := some "abc" }
        { status := 0, access_token := none, refresh_token := none }
      = .error (.valueError "No access_token given, cannot validate") := ⟨rfl, rfl, rfl⟩

/-- C2 counterexample: an unauthenticated session's `get_users_info` and
`get_channel_info` succeed against a healthy endpoint — no
`NotAuthenticated` failure occurs, contradicting the claim that every
metadata operation requires `authenticated == true`. -/
theorem claim_C2_counterexample :
    twitchUnauthenticated.is_authenticated = false
    ∧ Twitch.get_users_info twitchUnauthenticated ["123"] usersResp200
        = .ok (some [{ id := some "42" }])
    ∧ Twitch.get_channel_info twitchUnauthenticated (some "42") channelsResp200
        = some { broadcaster_name := "alice", title := "My Title", game_name := "GameX",
                 game_id := "g1" } := ⟨rfl, rfl, rfl⟩

/-- C2 (amended): the Twitch metadata operations never consult the
session's `authenticated` flag — their result is identical for the
authenticated and unauthenticated session — and no `NotAuthenticated`
gate exists in the client (that check lives in the orchestrator, which
raises `NotAuthenticatedError` before calling the client). -/
theorem claim_C2 (t : TwitchState) (b : Bool) (ids : List String) (uresp : UsersResponse)
    (uid : Option String) (cresp : ChannelsResponse) (user : String) (game : String)
    (gresp : GamesResponse) (vuid vgid : Option String) (vresp : VideosResponse) :
    Twitch.get_users_info { t with is_authenticated := b } ids uresp
        = Twitch.get_users_info t ids uresp
    ∧ Twitch.get_user_info { t with is_authenticated := b } user uresp
        = Twitch.get_user_info t user uresp
    ∧ Twitch.get_channel_info { t with is_authenticated := b } uid cresp
        = Twitch.get_channel_info t uid cresp
    ∧ Twitch.get_videos_info { t with is_authenticated := b } none vuid vgid vresp
        = Twitch.get_videos_info t none vuid vgid vresp
    ∧ Twitch.get_games_info { t with is_authenticated := b } ids gresp
        = Twitch.get_games_info t ids gresp
    ∧ Twitch.get_game_info { t with is_authenticated := b } game gresp
        = Twitch.get_game_info t game gresp := ⟨rfl, rfl, rfl, rfl, rfl, rfl⟩

/-- C8 counterexample: a session constructed from client credentials with
`client_id=''` (reachable: the credentials path only tests `is not None`)
is authenticated, yet `revoke_my_access()` raises `ValueError` *before*
POSTing anything, and the flag stays `True` — contradicting "for every
session state … unconditionally marks the session unauthenticated". -/
theorem claim_C8_counterexample :
    Twitch.init { access_token := none, client_id := some "", client_secret := some "sec" } none
        { status := 0, client_id := none }
        { status := 200, access_token := some "tok", refresh_token := none }
      = .ok c8State
    ∧ c8State.is_authenticated = true
    ∧ Twitch.revoke_my_access c8State
        = (c8State, [], some (.valueError "Invalid client_id provided"))
    ∧ (Twitch.revoke_my_access c8State).1.is_authenticated = true := ⟨rfl, rfl, rfl, rfl⟩

/-- C8 (amended): `revoke_my_access` POSTs the revoke request and
unconditionally clears the flag (the HTTP response is ignored, so a failed
revoke still clears it) exactly when both `client_id` and `access_token`
are truthy; when either is `None`/empty, `revoke_access` raises before any
POST and the authenticated flag is left unchanged. -/
theorem claim_C8 (t : TwitchState) :
    Twitch.revoke_my_access t =
      if pyTruthyOpt t.client_id && pyTruthyOpt t.access_token then
        ({ t with is_authenticated := false },
         [{ client_id := t.client_id.getD "", token := t.access_token.getD "" }], none)
      else
        (t, [],
         some (.valueError (if pyTruthyOpt t.client_id then "Invalid access_token provided"
                            else "Invalid client_id provided"))) := by
  unfold Twitch.revoke_my_access Twitch.revoke_access
  cases h1 : pyTruthyOpt t.client_id <;> cases h2 : pyTruthyOpt t.access_token <;> simp [h1, h2]

/-- C3 (code_bug): delivering StreamStopped with the platform client absent
(or present but unauthenticated) makes `__on_stop` raise
`NotAuthenticatedError`; `handle_events` has no exception handling, so the
error propagates to the host, nothing is POSTed, and — contradicting the
claim and the spec's fire-and-forget rule — `_is_streaming` stays `True`
(the assignment at the end of `__on_stop` is never reached). -/
theorem claim_C3 :
    DiscordNotificationScript.on_stop stoppedUnauthState stopOracle200 "2026-01-01T00:00:00"
      = (stoppedUnauthState, [],
         some (.notAuthenticated "Not Authenticated with twitch, cannot retrieve information"))
    ∧ DiscordNotificationScript.on_stop stoppedUnauthState2 stopOracle200 "2026-01-01T00:00:00"
      = (stoppedUnauthState2, [],
         some (.notAuthenticated "Not Authenticated with twitch, cannot retrieve information"))
    ∧ (OBSScript.handle_events
        [fun s => DiscordNotificationScript.on_stop s stopOracle200 "2026-01-01T00:00:00"]
        stoppedUnauthState).2.2
      = some (.notAuthenticated "Not Authenticated with twitch, cannot retrieve information")
    ∧ stoppedUnauthState.is_streaming = true
    ∧ (OBSScript.handle_events
        [fun s => DiscordNotificationScript.on_stop s stopOracle200 "2026-01-01T00:00:00"]
        stoppedUnauthState).1.is_streaming = true := ⟨rfl, rfl, rfl, rfl, rfl⟩

/-- C7 (confirmed): the StreamStarted scenario with `sendOnStart=true`,
username `alice`, `boxartHeight=72` and a channel lookup returning game
`GameX` / title `My Title` computes box-art 52×72
(`round(72*13/18) = 52`), formats the title as
`alice is streaming GameX on twitch.tv  | My Title`, and POSTs exactly one
payload per configured hook, each carrying the configured start message as
content. -/
theorem claim_C7 :
    DiscordNotificationScript.on_start startScenarioState startScenarioOracle "2026-01-01T00:00:00"
      = ({ startScenarioState with is_streaming := true },
         [startScenarioPayload "https://discord.example/hook1",
          startScenarioPayload "https://discord.example/hook2"], none)
    ∧ boxart_width 72 = 52
    ∧ (startScenarioPayload "https://discord.example/hook1").content
        = some "The stream has started, come watch!" := ⟨rfl, rfl, rfl⟩
